import Mathlib

/-!
Verification of the player statistics normalization and fantasy-scoring
pipeline of the NBA visualization dashboard (src/fantasy_dashboard.py),
against its natural-language specification.

Numbers are modelled as exact rationals (ℚ); the Python floats in the
source carry small literals (1, 1.2, 1.5, 3, -1) and the arithmetic under
scrutiny is the linear algebraic form, so ℚ is the faithful exact model.
Strings are modelled as `List Char`.
-/

namespace NbaDash

/-- The fantasy weight configuration `self.fantasy_settings`, one numeric
weight per stat key, in the insertion order of the source dict:
PTS, REB, AST, STL, BLK, TO. -/
structure FantasyWeights where
  PTS : ℚ
  REB : ℚ
  AST : ℚ
  STL : ℚ
  BLK : ℚ
  TO  : ℚ
deriving DecidableEq, Repr

/-- The default settings installed in `FantasyDashboard.__init__`:
{'PTS': 1, 'REB': 1.2, 'AST': 1.5, 'STL': 3, 'BLK': 3, 'TO': -1}. -/
def defaultSettings : FantasyWeights :=
  { PTS := 1, REB := 6/5, AST := 3/2, STL := 3, BLK := 3, TO := -1 }

/-- One row of the career-stats dataframe returned by the upstream
fetcher: season id plus the aggregate season totals the pipeline reads
(GP, PTS, REB, AST, STL, BLK, TO).  A missing TO column is normalized to
0 by the source (`if not in df.columns: df[TO] = 0`) before any
computation, so rows here always carry a TO value. -/
structure SeasonRow where
  SEASON_ID : List Char
  GP  : ℚ
  PTS : ℚ
  REB : ℚ
  AST : ℚ
  STL : ℚ
  BLK : ℚ
  TO  : ℚ
deriving DecidableEq, Repr

/-- The columns `load_player_data` selects and returns:
SEASON_ID, Fantasy Score, Points Per Game, Assists, Rebounds,
Efficiency, Steals, Blocks. -/
structure DerivedRow where
  SEASON_ID : List Char
  fantasyScore : ℚ
  pointsPerGame : ℚ
  assists : ℚ
  rebounds : ℚ
  efficiency : ℚ
  steals : ℚ
  blocks : ℚ
deriving DecidableEq, Repr

/-- The `Fantasy Score` column of `load_player_data`,
computed on season totals:
`PTS*w.PTS + REB*w.REB + AST*w.AST + STL*w.STL + BLK*w.BLK - TO*w.TO`. -/
def fantasyScoreTotal (w : FantasyWeights) (r : SeasonRow) : ℚ :=
  r.PTS * w.PTS + r.REB * w.REB + r.AST * w.AST +
    r.STL * w.STL + r.BLK * w.BLK - r.TO * w.TO

/-- The per-row computation of `load_player_data`: fantasy score on
season totals plus the per-game columns obtained by dividing by GP. -/
def deriveRow (w : FantasyWeights) (r : SeasonRow) : DerivedRow :=
  { SEASON_ID := r.SEASON_ID
    fantasyScore := fantasyScoreTotal w r
    pointsPerGame := r.PTS / r.GP
    assists := r.AST / r.GP
    rebounds := r.REB / r.GP
    efficiency := (r.PTS + r.REB + r.AST) / r.GP
    steals := r.STL / r.GP
    blocks := r.BLK / r.GP }

/-- `load_player_data`: column-wise transformation of the whole career
dataframe, one derived row per season row, order preserved.  (The pandas
column assignments act row-wise and independently, so the dataframe
transform is a `map`.) -/
def load_player_data (w : FantasyWeights) (df : List SeasonRow) : List DerivedRow :=
  df.map (deriveRow w)

/-- The `Fantasy Score Per Game` column of `generate_projections`,
computed on per-game rates:
`PTS/GP*w.PTS + REB/GP*w.REB + AST/GP*w.AST + STL/GP*w.STL
  + BLK/GP*w.BLK - TO/GP*w.TO`. -/
def fantasyScorePerGame (w : FantasyWeights) (r : SeasonRow) : ℚ :=
  r.PTS / r.GP * w.PTS + r.REB / r.GP * w.REB + r.AST / r.GP * w.AST +
    r.STL / r.GP * w.STL + r.BLK / r.GP * w.BLK - r.TO / r.GP * w.TO

/-- The projection record `generate_projections` builds from the most
recent season's row: Points, Rebounds, Assists per game and the per-game
fantasy score. -/
structure Projection where
  points : ℚ
  rebounds : ℚ
  assists : ℚ
  fantasyScore : ℚ
deriving DecidableEq, Repr

/-- Projection taken from one season row (`latest_season` in the source). -/
def projFromRow (w : FantasyWeights) (r : SeasonRow) : Projection :=
  { points := r.PTS / r.GP
    rebounds := r.REB / r.GP
    assists := r.AST / r.GP
    fantasyScore := fantasyScorePerGame w r }

/-- How the projection path can fail: the name lookup finds no player
(handled: the source shows "Player not found! Try again."), or
`df.iloc[-1]` is applied to an empty dataframe, which raises an
unhandled `IndexError`. -/
inductive ProjFailure where
  | playerNotFound : ProjFailure
  | indexError : ProjFailure
deriving DecidableEq, Repr

/-- The computational core of `generate_projections` after the player
lookup has succeeded: `df.iloc[-1]` selects the last row (raising
`IndexError` on an empty dataframe), and the projection is that row's
per-game stats. -/
def generate_projections (w : FantasyWeights) (df : List SeasonRow) :
    Except ProjFailure Projection :=
  match df.getLast? with
  | none => .error .indexError
  | some r => .ok (projFromRow w r)

/-- The parse outcomes of the six text fields of the settings form, one
per stat key in the dict's key order.  `float(text)` either yields a
number or raises `ValueError`; each field is therefore modelled by the
`Option ℚ` outcome of that parse. -/
structure StatInputs where
  PTS : Option ℚ
  REB : Option ℚ
  AST : Option ℚ
  STL : Option ℚ
  BLK : Option ℚ
  TO  : Option ℚ
deriving DecidableEq, Repr

/-- `save_settings`: iterates over the keys of `self.fantasy_settings` in
insertion order (PTS, REB, AST, STL, BLK, TO), assigning
`self.fantasy_settings[stat_key] = float(self.stat_inputs[stat_key].text())`
one key at a time inside a single try block.  The first `ValueError`
aborts the loop, but assignments already executed stay in place; the
except handler only prints a message. -/
def save_settings (st : FantasyWeights) (inp : StatInputs) : FantasyWeights :=
  match inp.PTS with
  | none => st
  | some vP =>
    let st := { st with PTS := vP }
    match inp.REB with
    | none => st
    | some vR =>
      let st := { st with REB := vR }
      match inp.AST with
      | none => st
      | some vA =>
        let st := { st with AST := vA }
        match inp.STL with
        | none => st
        | some vS =>
          let st := { st with STL := vS }
          match inp.BLK with
          | none => st
          | some vB =>
            let st := { st with BLK := vB }
            match inp.TO with
            | none => st
            | some vT => { st with TO := vT }

/-- One record of `self.all_players` (the static active-player index):
id and full name.  Position lives in the separate
`player_positions.json` index, see `PosEntry`. -/
structure PlayerIdentity where
  id : Int
  full_name : List Char
deriving DecidableEq, Repr

/-- Python `str.lower()` on the names handled here, character-wise. -/
def pyLower (s : List Char) : List Char :=
  s.map Char.toLower

/-- The lookup both `search_player` and `generate_projections` perform:
`next((p for p in self.all_players if p[full_name].lower() ==
player_name.lower()), None)` — the first player whose full name equals
the query case-insensitively, else `None`. -/
def lookup_player (allPlayers : List PlayerIdentity) (query : List Char) :
    Option PlayerIdentity :=
  allPlayers.find? (fun p => pyLower p.full_name == pyLower query)

/-- One record of `player_positions.json`: name and roster position
string (possibly multi-token, e.g. "Guard-Forward"). -/
structure PosEntry where
  name : List Char
  position : List Char
deriving DecidableEq, Repr

/-- Python `a == b[:len(a)]`-style prefix test used to build the
substring test below. -/
def isPrefixB : List Char → List Char → Bool
  | [], _ => true
  | _ :: _, [] => false
  | a :: as, b :: bs => a == b && isPrefixB as bs

/-- Python's `needle in hay` substring containment on strings: `needle`
occurs contiguously somewhere in `hay`. -/
def containsSub (needle hay : List Char) : Bool :=
  isPrefixB needle hay ||
    match hay with
    | [] => false
    | _ :: t => containsSub needle t

/-- `filter_players_by_position`: "All" keeps the whole
`player_positions` index, otherwise keep entries with
`position in player['position']` (substring containment). -/
def filter_players_by_position (idx : List PosEntry) (position : List Char) :
    List PosEntry :=
  if position == ("All".toList) then idx
  else idx.filter (fun p => containsSub position p.position)

/-- The mutable program state the claims talk about: the two selected
players, their loaded derived data, the weights configuration, and the
projection label text. -/
structure AppState where
  current_player_1 : Option PlayerIdentity
  current_player_2 : Option PlayerIdentity
  data_1 : Option (List DerivedRow)
  data_2 : Option (List DerivedRow)
  fantasy_settings : FantasyWeights
  projection_label : List Char
deriving DecidableEq, Repr

/-- `search_player(player_num)`: look the query up in `all_players`; on
a match store the player and their freshly derived data (the external
fetch is the `fetch` parameter) and redraw; on no match the `if` body is
skipped and nothing happens. -/
def search_player (fetch : Int → List SeasonRow)
    (allPlayers : List PlayerIdentity) (playerNum : Nat)
    (query : List Char) (s : AppState) : AppState :=
  match lookup_player allPlayers query with
  | none => s
  | some p =>
    if playerNum == 1 then
      { s with current_player_1 := some p
               data_1 := some (load_player_data s.fantasy_settings (fetch p.id)) }
    else
      { s with current_player_2 := some p
               data_2 := some (load_player_data s.fantasy_settings (fetch p.id)) }

/-- The message `generate_projections` writes on a failed lookup. -/
def notFoundMsg : List Char :=
  "Player not found! Try again.".toList

/-- The state effect of `generate_projections` on a failed lookup: set
the projection label to the not-found message and return; no other
attribute is touched. -/
def generate_projections_notfound (allPlayers : List PlayerIdentity)
    (query : List Char) (s : AppState) : AppState :=
  match lookup_player allPlayers query with
  | none => { s with projection_label := notFoundMsg }
  | some _ => s

/-- The single-season worked example of the specification:
{season_id:"2021-22", gp:70, pts:1750, reb:350, ast:280, stl:70, blk:35,
to:140}. -/
def exampleSeason : SeasonRow :=
  { SEASON_ID := "2021-22".toList, GP := 70, PTS := 1750, REB := 350,
    AST := 280, STL := 70, BLK := 35, TO := 140 }

/-- A season row with zero games played (and nonzero totals). -/
def zeroGpSeason : SeasonRow :=
  { SEASON_ID := "2020-21".toList, GP := 0, PTS := 10, REB := 4,
    AST := 3, STL := 1, BLK := 1, TO := 2 }

/-- A combo-position index entry, position "Guard-Forward". -/
def gfEntry : PosEntry :=
  { name := "Sam Example".toList, position := "Guard-Forward".toList }

/-- A concrete player-index entry for witnesses. -/
def samplePlayer : PlayerIdentity :=
  { id := 23, full_name := "LeBron James".toList }

/-- A concrete application state for witnesses. -/
def sampleState : AppState :=
  { current_player_1 := some samplePlayer, current_player_2 := none
    data_1 := some [], data_2 := none
    fantasy_settings := defaultSettings
    projection_label := "Projection Details will appear here.".toList }

/-- `isPrefixB` decides list-prefix. -/
theorem isPrefixB_iff (a b : List Char) : isPrefixB a b = true ↔ a <+: b := by
  induction a generalizing b with
  | nil => simp [isPrefixB]
  | cons x xs ih =>
    cases b with
    | nil => simp [isPrefixB]
    | cons y ys =>
      simp [isPrefixB, List.cons_prefix_cons, ih, And.comm]

/-- `containsSub` (Python's `in` on strings) decides contiguous-substring
containment, i.e. the infix relation on character lists. -/
theorem containsSub_iff (a b : List Char) : containsSub a b = true ↔ a <:+: b := by
  induction b with
  | nil =>
    rw [containsSub]
    simp [isPrefixB_iff, List.prefix_nil, List.infix_nil]
  | cons y ys ih =>
    rw [containsSub]
    simp [isPrefixB_iff, ih, List.infix_cons_iff]

/-- Claim C1 (code divergence): `save_settings` is not all-or-nothing.
With the default configuration and inputs whose PTS field parses to 2 but
whose REB field fails to parse, the resulting configuration has PTS
changed to 2 — a partial mutation — and therefore differs from the
pre-update configuration, contradicting the atomicity the specification
requires. -/
theorem save_settings_partial_mutation :
    save_settings defaultSettings
        { PTS := some 2, REB := none, AST := some 1,
          STL := some 1, BLK := some 1, TO := some 1 } =
      { defaultSettings with PTS := 2 } ∧
    ({ defaultSettings with PTS := 2 } : FantasyWeights) ≠ defaultSettings :=
  ⟨rfl, by decide⟩

/-- Claim C2 (code divergence): a season with `games_played = 0` is not
rejected and not omitted: `load_player_data` performs the divisions
anyway and the zero-games season still appears in the derived metrics
sequence (same length, same season id), with no `DivisionByZeroMetric`
failure anywhere in the pipeline. -/
theorem zero_games_season_not_omitted :
    (load_player_data defaultSettings [zeroGpSeason]).length = 1 ∧
    (load_player_data defaultSettings [zeroGpSeason]).map
        (fun d => d.SEASON_ID) = [zeroGpSeason.SEASON_ID] :=
  ⟨rfl, rfl⟩

/-- Claim C3: `load_player_data` computes the fantasy score on season
totals by the linear formula
`PTS*w.PTS + REB*w.REB + AST*w.AST + STL*w.STL + BLK*w.BLK - TO*w.TO`
for every row, and on the specification's worked single-season example
with the default weights the fantasy score is 3045. -/
theorem fantasy_score_on_totals (w : FantasyWeights) (df : List SeasonRow) :
    (load_player_data w df).map (fun d => d.fantasyScore) =
      df.map (fun r =>
        r.PTS * w.PTS + r.REB * w.REB + r.AST * w.AST +
          r.STL * w.STL + r.BLK * w.BLK - r.TO * w.TO) ∧
    (load_player_data defaultSettings [exampleSeason]).map
        (fun d => d.fantasyScore) = [3045] := by
  constructor
  · simp [load_player_data, deriveRow, fantasyScoreTotal]
  · simp [load_player_data, deriveRow, fantasyScoreTotal, exampleSeason,
      defaultSettings]
    norm_num

/-- Claim C4: on a non-empty season list whose last entry has
games_played > 0, `generate_projections` takes the chronologically last
row as the basis and returns that season's per-game rates with the
fantasy score computed by the linear formula on those per-game values;
on the specification's worked example with default weights this gives
points 25, rebounds 5, assists 4 and fantasy score 43.5. -/
theorem projection_last_season_per_game (w : FantasyWeights)
    (df : List SeasonRow) (r : SeasonRow)
    (hlast : df.getLast? = some r) (hgp : 0 < r.GP) :
    generate_projections w df =
      .ok { points := r.PTS / r.GP, rebounds := r.REB / r.GP,
            assists := r.AST / r.GP,
            fantasyScore :=
              r.PTS / r.GP * w.PTS + r.REB / r.GP * w.REB +
                r.AST / r.GP * w.AST + r.STL / r.GP * w.STL +
                r.BLK / r.GP * w.BLK - r.TO / r.GP * w.TO } ∧
    generate_projections defaultSettings [exampleSeason] =
      .ok { points := 25, rebounds := 5, assists := 4, fantasyScore := 87 / 2 } := by
  constructor
  · simp [generate_projections, hlast, projFromRow, fantasyScorePerGame]
  · simp [generate_projections, projFromRow, fantasyScorePerGame,
      exampleSeason, defaultSettings]
    norm_num

/-- Witness for C4 at the worked example. -/
theorem projection_last_season_per_game_witness :
    generate_projections defaultSettings [exampleSeason] =
      .ok { points := 25, rebounds := 5, assists := 4, fantasyScore := 87 / 2 } :=
  (projection_last_season_per_game defaultSettings [exampleSeason]
    exampleSeason rfl (by norm_num [exampleSeason])).2

/-- Claim C5 (code divergence): on an empty season list the projection
path does not produce a reported `EmptySeasonList` condition: the
`df.iloc[-1]` selection raises an `IndexError` (an unhandled crash in
the source), modelled here as the `indexError` failure. -/
theorem empty_seasons_index_error (w : FantasyWeights) :
    generate_projections w [] = .error .indexError :=
  rfl

/-- Claim C6: `filter_players_by_position` with "All" returns the whole
index; with any other position it returns exactly the entries whose
position string contains the requested token as a contiguous substring;
in particular a "Guard-Forward" player is kept by the "Guard" and
"Forward" filters and dropped by the "Center" filter. -/
theorem filter_by_position_spec (idx : List PosEntry) (pos : List Char)
    (p : PosEntry) (hpos : pos ≠ "All".toList) :
    filter_players_by_position idx ("All".toList) = idx ∧
    (p ∈ filter_players_by_position idx pos ↔
      p ∈ idx ∧ pos <:+: p.position) ∧
    gfEntry ∈ filter_players_by_position [gfEntry] ("Guard".toList) ∧
    gfEntry ∈ filter_players_by_position [gfEntry] ("Forward".toList) ∧
    gfEntry ∉ filter_players_by_position [gfEntry] ("Center".toList) := by
  refine ⟨by simp [filter_players_by_position], ?_, by decide, by decide, by decide⟩
  have hne : pos ≠ ['A', 'l', 'l'] := by simpa using hpos
  simp [filter_players_by_position, hne, List.mem_filter, containsSub_iff]

/-- Witness for C6: the "Guard" filter keeps the "Guard-Forward" player. -/
theorem filter_by_position_spec_witness :
    gfEntry ∈ filter_players_by_position [gfEntry] ("Guard".toList) :=
  (filter_by_position_spec [gfEntry] ("Guard".toList) gfEntry (by decide)).2.2.1

/-- Claim C7: the player lookup succeeds exactly when some indexed
player's full name equals the query under case-insensitive comparison of
the whole string, and any player it returns satisfies that exact
case-insensitive equality (no substring or fuzzy matching). -/
theorem lookup_player_exact_ci_match (allPlayers : List PlayerIdentity)
    (query : List Char) :
    ((lookup_player allPlayers query).isSome = true ↔
      ∃ p ∈ allPlayers, pyLower p.full_name = pyLower query) ∧
    (∀ p, lookup_player allPlayers query = some p →
      pyLower p.full_name = pyLower query) := by
  constructor
  · simp [lookup_player, List.find?_isSome]
  · intro p hp
    simp only [lookup_player] at hp
    have h2 := List.find?_some hp
    exact beq_iff_eq.mp
      (show (pyLower p.full_name == pyLower query) = true from h2)

/-- Witness for C7: looking up "lebron james" finds the indexed player
named "LeBron James". -/
theorem lookup_player_exact_ci_match_witness :
    (lookup_player [samplePlayer] ("lebron james".toList)).isSome = true :=
  (lookup_player_exact_ci_match [samplePlayer] ("lebron james".toList)).1.mpr
    ⟨samplePlayer, by decide, by decide⟩

/-- Claim C8: when the name lookup fails, `search_player` leaves the
whole state unchanged, and the projection path only writes the
not-found message into the projection label: the selected players, their
loaded data and the weights configuration are all retained. -/
theorem player_not_found_no_state_change (fetch : Int → List SeasonRow)
    (allPlayers : List PlayerIdentity) (playerNum : Nat)
    (query : List Char) (s : AppState)
    (h : lookup_player allPlayers query = none) :
    search_player fetch allPlayers playerNum query s = s ∧
    generate_projections_notfound allPlayers query s =
      { s with projection_label := notFoundMsg } ∧
    (generate_projections_notfound allPlayers query s).current_player_1 =
      s.current_player_1 ∧
    (generate_projections_notfound allPlayers query s).current_player_2 =
      s.current_player_2 ∧
    (generate_projections_notfound allPlayers query s).data_1 = s.data_1 ∧
    (generate_projections_notfound allPlayers query s).data_2 = s.data_2 ∧
    (generate_projections_notfound allPlayers query s).fantasy_settings =
      s.fantasy_settings := by
  refine ⟨?_, ?_, ?_, ?_, ?_, ?_, ?_⟩ <;>
    simp [search_player, generate_projections_notfound, h]

/-- Witness for C8: a lookup over an empty index fails and changes
nothing in a concrete state. -/
theorem player_not_found_no_state_change_witness :
    search_player (fun _ => []) [] 1 ("Nobody".toList) sampleState =
      sampleState :=
  (player_not_found_no_state_change (fun _ => []) [] 1 ("Nobody".toList)
    sampleState rfl).1

/-- Claim C9: the fantasy score on season totals is linear in each
weight: doubling any one weight, all else fixed, adds exactly one more
copy of that stat's contribution, i.e. doubles that contribution
(the turnovers contribution being `-TO*w.TO`). -/
theorem fantasy_score_linear_in_weights (r : SeasonRow) (w : FantasyWeights) :
    fantasyScoreTotal { w with PTS := 2 * w.PTS } r =
      fantasyScoreTotal w r + r.PTS * w.PTS ∧
    fantasyScoreTotal { w with REB := 2 * w.REB } r =
      fantasyScoreTotal w r + r.REB * w.REB ∧
    fantasyScoreTotal { w with AST := 2 * w.AST } r =
      fantasyScoreTotal w r + r.AST * w.AST ∧
    fantasyScoreTotal { w with STL := 2 * w.STL } r =
      fantasyScoreTotal w r + r.STL * w.STL ∧
    fantasyScoreTotal { w with BLK := 2 * w.BLK } r =
      fantasyScoreTotal w r + r.BLK * w.BLK ∧
    fantasyScoreTotal { w with TO := 2 * w.TO } r =
      fantasyScoreTotal w r - r.TO * w.TO := by
  refine ⟨?_, ?_, ?_, ?_, ?_, ?_⟩ <;> simp [fantasyScoreTotal] <;> ring

/-- Claim C10: for games_played > 0 the per-game fantasy score of the
projection path equals the season-total fantasy score of the metrics
path divided by games played, in exact arithmetic. -/
theorem per_game_score_eq_total_div_gp (w : FantasyWeights) (r : SeasonRow)
    (h : 0 < r.GP) :
    fantasyScorePerGame w r = fantasyScoreTotal w r / r.GP := by
  have hne : r.GP ≠ 0 := ne_of_gt h
  unfold fantasyScorePerGame fantasyScoreTotal
  field_simp

/-- Witness for C10 at the worked example. -/
theorem per_game_score_eq_total_div_gp_witness :
    fantasyScorePerGame defaultSettings exampleSeason =
      fantasyScoreTotal defaultSettings exampleSeason / exampleSeason.GP :=
  per_game_score_eq_total_div_gp defaultSettings exampleSeason
    (by norm_num [exampleSeason])

end NbaDash
